import Mathlib

/-!
Verification of the nuke-mcp command-dispatch bridge.

The development shallowly embeds the bridge server code
(`nuke_bridge_server.py`, `foundry_nuke_bridge.py`) and the
command-line client (`foundry_client.py`): JSON values are an inductive
type, the per-message processing of `handle_client` and the dispatch of
`process_command` are pure Lean functions, and the threaded parts
(server lifecycle, main-thread executor) are explicit state-passing
models.  The host application's `nuke.executeInMainThread` facility is
not part of the repository; where a property depends on it, the
definition is modelled from the specification's collaborator contract
and marked as such in its doc comment.
-/

namespace NukeMCP

/-- JSON values as decoded by `json.loads`: null, booleans, numbers,
strings, arrays and objects.  Objects keep their fields as an
association list; numbers are restricted to integers, which covers
every value the verified code paths construct or inspect. -/
inductive Json where
  | null
  | bool (b : Bool)
  | num (n : Int)
  | str (s : String)
  | arr (elems : List Json)
  | obj (fields : List (String × Json))

/-- `dict.get(key)` on a decoded JSON object: the value under the first
matching key, if any. -/
def jsonLookup : List (String × Json) → String → Option Json
  | [], _ => none
  | (k, v) :: rest, key => if k = key then some v else jsonLookup rest key

/-- Python `str()` rendering of the optional value `command.get('type')`
as it appears inside the source's f-strings: a missing key renders as
`"None"`, a string renders as itself, and the remaining decoded shapes
render as Python would print them. -/
def pyStr : Option Json → String
  | none => "None"
  | some Json.null => "None"
  | some (Json.bool true) => "True"
  | some (Json.bool false) => "False"
  | some (Json.num n) => toString n
  | some (Json.str s) => s
  | some (Json.arr _) => "<list>"
  | some (Json.obj _) => "<dict>"

/-- Python type name of a decoded JSON value, used in the
`AttributeError` message raised when `process_command` calls `.get` on
a non-dict. -/
def pyTypeName : Json → String
  | Json.null => "NoneType"
  | Json.bool _ => "bool"
  | Json.num _ => "int"
  | Json.str _ => "str"
  | Json.arr _ => "list"
  | Json.obj _ => "dict"

/-- A raised Python exception, observed through `str(e)`. -/
structure PyErr where
  msg : String
deriving Repr, DecidableEq

/-- A command handler as stored in `COMMAND_MAP`: it receives the `args`
mapping and either returns a result object or raises. -/
def Handler : Type := Json → Except PyErr Json

/-- The command names registered in `COMMAND_MAP` of
`nuke_bridge_server.py` (basic commands followed by VFX commands). -/
def commandNames : List String :=
  ["createNode", "setKnobValue", "getNode", "execute",
   "connectNodes", "setNodePosition", "getNodePosition",
   "createGroup", "createLiveGroup", "loadTemplate", "saveTemplate",
   "listNodes", "runPythonScript", "loadScript", "saveScript",
   "setProjectSettings",
   "createCameraTracker", "solveCameraTrack", "createScene",
   "setupDeepPipeline", "batchProcess", "setupCopyCat",
   "trainCopyCatModel", "setupBasicComp", "setupKeyer",
   "setupMotionBlur"]

/-- `COMMAND_MAP` of `nuke_bridge_server.py`, parametrised by the
handler implementations (they live in `nuke_bridge_enhanced.py` /
`nuke_bridge_vfx.py` and call the host API): the map binds exactly the
names of `commandNames`. -/
def COMMAND_MAP (impl : String → Handler) : String → Option Handler :=
  fun name => if name ∈ commandNames then some (impl name) else none

/-- Modelled from the spec: the host collaborator capability
`runOnOwningThread(job) -> Response` (spec section 6).  The source calls
`nuke.executeInMainThread`, whose implementation belongs to the host
application, not this repository; per the contract the job runs
exclusively on the owning thread and its result — or the exception it
raises — is handed back to the submitting caller. -/
def executeInMainThread (job : Except PyErr Json) : Except PyErr Json :=
  job

/-- `NukeBridgeServer.process_command` (`nuke_bridge_server.py` lines
168–183): read `type` and `args` (defaulting to the empty mapping) off
the command object; a registered type runs its handler via
`executeInMainThread` with faults converted to an
`"Error executing <type>: <e>"` failure object; an unregistered type
yields `"Unknown command type: <type>"`.  Calling `.get` on a non-dict
raises `AttributeError`, which propagates to the caller. -/
def process_command (registry : String → Option Handler) (command : Json) :
    Except PyErr Json :=
  match command with
  | Json.obj fields =>
    let cmdType := jsonLookup fields "type"
    let args := (jsonLookup fields "args").getD (Json.obj [])
    match cmdType with
    | some (Json.str t) =>
      match registry t with
      | some handler =>
        match executeInMainThread (handler args) with
        | Except.ok result => Except.ok result
        | Except.error e =>
          Except.ok (Json.obj
            [("error", Json.str ("Error executing " ++ t ++ ": " ++ e.msg))])
      | none =>
        Except.ok (Json.obj
          [("error", Json.str ("Unknown command type: " ++ t))])
    | other =>
      Except.ok (Json.obj
        [("error", Json.str ("Unknown command type: " ++ pyStr other))])
  | nonDict =>
    Except.error ⟨"'" ++ pyTypeName nonDict ++ "' object has no attribute" ++
      " " ++ "'get'"⟩

/-- The outcome of `client.recv(8192)` plus `data.decode('utf-8')`
plus `json.loads` for one received message inside `handle_client`:
`ok` when decoding and parsing both succeed; `jsonError` when the bytes
are UTF-8 text but `json.loads` raises `json.JSONDecodeError`;
`decodeError` when `data.decode('utf-8')` itself raises
`UnicodeDecodeError` on non-UTF-8 bytes.  `str()` of a
`UnicodeDecodeError` always begins `"'utf-8' codec can't decode "`;
the constructor carries the remainder of that message (byte, position
and reason). -/
inductive ParseOutcome where
  | ok (command : Json)
  | jsonError (msg : String)
  | decodeError (detail : String)

/-- The body of `handle_client`'s inner `try` for one message
(`nuke_bridge_server.py` lines 143–160): a `json.JSONDecodeError`
produces an `"Invalid JSON: <e>"` failure object; a
`UnicodeDecodeError` from `data.decode('utf-8')` is NOT a
`json.JSONDecodeError`, so it falls to the generic `except Exception`
branch, which produces `{"error": str(e)}` — the codec message without
the `"Invalid JSON: "` prefix; the same generic branch renders any
exception escaping `process_command`; otherwise the result of
`process_command` is sent back. -/
def handle_message (registry : String → Option Handler) (p : ParseOutcome) :
    Json :=
  match p with
  | ParseOutcome.jsonError e =>
    Json.obj [("error", Json.str ("Invalid JSON: " ++ e))]
  | ParseOutcome.decodeError detail =>
    Json.obj [("error", Json.str ("'utf-8' codec can't decode " ++ detail))]
  | ParseOutcome.ok command =>
    match process_command registry command with
    | Except.ok result => result
    | Except.error e => Json.obj [("error", Json.str e.msg)]

/-- One `recv` event on a client connection: either data (with its
parse outcome) or a zero-length read, meaning the peer closed. -/
inductive RecvEvent where
  | data (p : ParseOutcome)
  | closed

/-- The `handle_client` loop (`nuke_bridge_server.py` lines 136–166):
it keeps reading events and answering each data event with exactly one
response until a zero-length read breaks the loop; the returned list is
the sequence of responses written back on the connection.  Decode
failures do not leave the loop, so the connection stays open. -/
def handle_client (registry : String → Option Handler) :
    List RecvEvent → List Json
  | [] => []
  | RecvEvent.closed :: _ => []
  | RecvEvent.data p :: rest =>
    handle_message registry p :: handle_client registry rest

/-- The four command methods of `FoundryNukeBridge`
(`foundry_nuke_bridge.py`); each wraps every internal exception into an
error object itself, so a method invocation always returns a value. -/
structure FoundryHandlers where
  create_node : Json → Json
  set_knob_value : Json → Json
  get_node : Json → Json
  execute_render : Json → Json

/-- `FoundryNukeBridge.process_command` (`foundry_nuke_bridge.py` lines
86–100): read `type` and `args` (defaulting to the empty mapping), then
dispatch through the four-way `if`/`elif` chain; anything else yields
`"Unknown command type: <type>"`. -/
def foundry_process_command (h : FoundryHandlers) (command : Json) :
    Except PyErr Json :=
  match command with
  | Json.obj fields =>
    let cmdType := jsonLookup fields "type"
    let args := (jsonLookup fields "args").getD (Json.obj [])
    match cmdType with
    | some (Json.str t) =>
      if t = "createNode" then Except.ok (h.create_node args)
      else if t = "setKnobValue" then Except.ok (h.set_knob_value args)
      else if t = "getNode" then Except.ok (h.get_node args)
      else if t = "execute" then Except.ok (h.execute_render args)
      else
        Except.ok (Json.obj
          [("error", Json.str ("Unknown command type: " ++ t))])
    | other =>
      Except.ok (Json.obj
        [("error", Json.str ("Unknown command type: " ++ pyStr other))])
  | nonDict =>
    Except.error ⟨"'" ++ pyTypeName nonDict ++ "' object has no attribute" ++
      " " ++ "'get'"⟩

/-- A Response on the wire: a success object or a failure carrying the
human-readable error message. -/
inductive Response where
  | success (fields : List (String × Json))
  | failure (message : String)

/-- Modelled from the spec: a WorkItem of the Main-Thread Executor
(spec sections 3 and 4.3) — a job awaiting execution on the owning
thread, tagged with the submission sequence number assigned when it was
enqueued on the FIFO work queue.  The executor pump is implemented by
the host application (`nuke.executeInMainThread`), not by code under
this repository. -/
structure WorkItem where
  id : Nat
  job : Unit → Response

/-- Modelled from the spec: the state of the owning-thread pump — the
FIFO work queue (head is the oldest submission) and the completed items
in the order they were executed, each paired with its result. -/
structure PumpState where
  queue : List WorkItem
  executed : List (Nat × Response)

/-- Modelled from the spec: one iteration of the owning-thread pump
(spec section 4.3) — dequeue the single oldest WorkItem, run its job
synchronously, and record its result; an empty queue leaves the state
unchanged (the pump idle-waits). -/
def pumpStep (s : PumpState) : PumpState :=
  match s.queue with
  | [] => s
  | w :: rest => { queue := rest, executed := s.executed ++ [(w.id, w.job ())] }

/-- `n` iterations of the owning-thread pump. -/
def pumpRun : Nat → PumpState → PumpState
  | 0, s => s
  | Nat.succ n, s => pumpRun n (pumpStep s)

/-- Modelled from the spec: `submit(job) -> Response` of the
Main-Thread Executor (spec section 4.3).  With an owning-thread pump
attached the job is marshalled onto it and its Response returned; with
no pump attached `submit` fails synchronously with
`ExecutorUnavailable` instead of blocking forever. -/
def submit (pump : Option ((Unit → Response) → Response))
    (job : Unit → Response) : Response :=
  match pump with
  | none => Response.failure "ExecutorUnavailable"
  | some runOnOwningThread => runOnOwningThread job

/-- The mutable state of a `NukeBridgeServer` instance relevant to
`stop()`: the `running` flag, whether the listening socket has been
closed, and whether a thread is currently blocked in `accept()`. -/
structure ServerState where
  running : Bool
  socketClosed : Bool
  acceptPending : Bool
deriving Repr, DecidableEq

/-- A `connect()` to the server's own (host, port) succeeds exactly
while the listening socket is still open. -/
def selfConnectSucceeds (s : ServerState) : Bool :=
  !s.socketClosed

/-- `NukeBridgeServer.stop` (`nuke_bridge_server.py` lines 185–192;
`FoundryNukeBridge.stop` is identical): clear `running`, then inside a
`try` open a dummy connection to itself — which wakes a blocked
`accept()` — and close the listening socket; if the dummy connection
fails (e.g. the socket is already closed) the bare `except: pass`
swallows the exception and the `close()` line is skipped. -/
def ServerState.stop (s : ServerState) : ServerState :=
  let s1 : ServerState := { s with running := false }
  if selfConnectSucceeds s1 then
    { s1 with acceptPending := false, socketClosed := true }
  else
    s1

/-- The module-level state of `nuke_bridge_server.py`: the global
`_nuke_bridge_server` slot (an instance id paired with its state, or
`none`) plus a counter for minting fresh instance identities. -/
structure BridgeGlobal where
  inst : Option (Nat × ServerState)
  nextId : Nat
deriving Repr, DecidableEq

/-- A freshly constructed and started `NukeBridgeServer()` whose `run`
loop has marked it running: socket open, not yet blocked in accept. -/
def newServer : ServerState :=
  { running := true, socketClosed := false, acceptPending := false }

/-- `start_nuke_bridge_server` (`nuke_bridge_server.py` lines 197–213):
when the global slot is empty or its instance is not running, construct
a fresh daemonized server, start it and return `True`; otherwise leave
the live instance untouched and return `False`.  (Registering the
menu's stop affordance touches only the host UI and is elided.) -/
def start_nuke_bridge_server (g : BridgeGlobal) : Bool × BridgeGlobal :=
  match g.inst with
  | some (_, s) =>
    if s.running then (false, g)
    else
      (true, { inst := some (g.nextId, newServer), nextId := g.nextId + 1 })
  | none =>
    (true, { inst := some (g.nextId, newServer), nextId := g.nextId + 1 })

/-- `stop_nuke_bridge_server` (`nuke_bridge_server.py` lines 215–221):
when the global slot holds a running instance, call its `stop()`, clear
the slot and return `True`; otherwise return `False` and change
nothing. -/
def stop_nuke_bridge_server (g : BridgeGlobal) : Bool × BridgeGlobal :=
  match g.inst with
  | some (_, s) =>
    if s.running then (true, { g with inst := none })
    else (false, g)
  | none => (false, g)

/-- A handler implementation that always succeeds with `null`; used to
instantiate handler-parametric statements at concrete inputs. -/
def trivialImpl : String → Handler :=
  fun _ _ => Except.ok Json.null

/-- A handler implementation that always raises; used to instantiate
fault statements at concrete inputs. -/
def faultingImpl : String → Handler :=
  fun _ _ => Except.error ⟨"boom"⟩

/-- Concrete `FoundryNukeBridge` methods used to instantiate
handler-parametric statements at concrete inputs. -/
def trivialFoundry : FoundryHandlers :=
  ⟨fun _ => Json.null, fun _ => Json.null, fun _ => Json.null,
   fun _ => Json.null⟩

/-- Does a response object report a wire-decode (`MalformedInput`)
failure, i.e. carry an error message of the `"Invalid JSON: ..."`
family produced by `handle_client`'s decode branch? -/
def isMalformedInputResponse (r : Json) : Bool :=
  match r with
  | Json.obj [("error", Json.str m)] =>
    List.isPrefixOf "Invalid JSON: ".data m.data
  | _ => false

/-- C1: for every command whose type names a registered handler, a
fault raised while invoking the handler (marshalled through
`executeInMainThread`) is caught by `process_command`, which returns a
single Failure Response whose `error` field mentions the command type
(`"Error executing <type>: <fault>"`); the fault does not propagate, so
the caller always receives exactly one Response. -/
theorem handler_fault_recovered
    (impl : String → Handler) (fields : List (String × Json))
    (t : String) (e : PyErr)
    (htype : jsonLookup fields "type" = some (Json.str t))
    (hreg : t ∈ commandNames)
    (hfault : impl t ((jsonLookup fields "args").getD (Json.obj [])) =
      Except.error e) :
    process_command (COMMAND_MAP impl) (Json.obj fields) =
      Except.ok (Json.obj
        [("error",
          Json.str ("Error executing " ++ t ++ ": " ++ e.msg))]) := by
  simp [process_command, COMMAND_MAP, htype, hreg, executeInMainThread, hfault]

/-- C1 witness: a registered command (`createNode`) whose handler
raises `boom` is answered with the converted Failure Response. -/
theorem handler_fault_recovered_witness :
    process_command (COMMAND_MAP faultingImpl)
        (Json.obj [("type", Json.str "createNode")]) =
      Except.ok (Json.obj
        [("error", Json.str "Error executing createNode: boom")]) :=
  handler_fault_recovered faultingImpl [("type", Json.str "createNode")]
    "createNode" ⟨"boom"⟩ rfl (by decide) rfl

/-- C2: for every command whose type is a string that names no
registered command, dispatch returns a Failure Response whose error
message is exactly `"Unknown command type: <name>"` with the name
verbatim, and no handler is invoked — the result is the same for every
handler implementation, on both `NukeBridgeServer.process_command` and
`FoundryNukeBridge.process_command`. -/
theorem unknown_command_failure
    (fields : List (String × Json)) (t : String)
    (htype : jsonLookup fields "type" = some (Json.str t))
    (habsent : t ∉ commandNames) :
    (∀ impl : String → Handler,
      process_command (COMMAND_MAP impl) (Json.obj fields) =
        Except.ok (Json.obj
          [("error", Json.str ("Unknown command type: " ++ t))])) ∧
    (∀ fh : FoundryHandlers,
      foundry_process_command fh (Json.obj fields) =
        Except.ok (Json.obj
          [("error", Json.str ("Unknown command type: " ++ t))])) := by
  have h1 : t ≠ "createNode" := by
    intro h; exact habsent (by rw [h]; decide)
  have h2 : t ≠ "setKnobValue" := by
    intro h; exact habsent (by rw [h]; decide)
  have h3 : t ≠ "getNode" := by
    intro h; exact habsent (by rw [h]; decide)
  have h4 : t ≠ "execute" := by
    intro h; exact habsent (by rw [h]; decide)
  constructor
  · intro impl
    simp [process_command, COMMAND_MAP, htype, habsent]
  · intro fh
    simp [foundry_process_command, htype, h1, h2, h3, h4]

/-- C2 witness: the spec's scenario — a `bogus` command is answered
with `{"error": "Unknown command type: bogus"}` by both servers. -/
theorem unknown_command_failure_witness :
    process_command (COMMAND_MAP trivialImpl)
        (Json.obj [("type", Json.str "bogus")]) =
      Except.ok (Json.obj
        [("error", Json.str "Unknown command type: bogus")]) ∧
    foundry_process_command trivialFoundry
        (Json.obj [("type", Json.str "bogus")]) =
      Except.ok (Json.obj
        [("error", Json.str "Unknown command type: bogus")]) :=
  ⟨(unknown_command_failure [("type", Json.str "bogus")] "bogus" rfl
      (by decide)).1 trivialImpl,
   (unknown_command_failure [("type", Json.str "bogus")] "bogus" rfl
      (by decide)).2 trivialFoundry⟩

/-- Every list is a prefix of itself extended by anything. -/
theorem isPrefixOf_append_self (xs ys : List Char) :
    List.isPrefixOf xs (xs ++ ys) = true := by
  induction xs with
  | nil => simp [List.isPrefixOf]
  | cons a as ih => simp [List.isPrefixOf, ih]

/-- A message whose first character differs from `I` cannot carry the
`"Invalid JSON: "` marker. -/
theorem marker_head_ne (c : Char) (cs : List Char) (h : c ≠ 'I') :
    List.isPrefixOf "Invalid JSON: ".data (c :: cs) = false := by
  show List.isPrefixOf ('I' :: "nvalid JSON: ".data) (c :: cs) = false
  simp [List.isPrefixOf, beq_eq_false_iff_ne, Ne.symm h]

/-- C3 counterexample: the received byte sequence `b"\xff"` is not
valid JSON, yet the handler's answer is not an `"Invalid JSON: ..."`
Failure: `data.decode('utf-8')` raises `UnicodeDecodeError` before
`json.loads` runs, that exception does not match the
`json.JSONDecodeError` clause, and the generic `except Exception`
branch answers with `str(e)` — the codec message, which does not start
with `"Invalid JSON: "`. -/
theorem nonutf8_bytes_counterexample :
    handle_client (COMMAND_MAP trivialImpl)
        [RecvEvent.data (ParseOutcome.decodeError
          "byte 0xff in position 0: invalid start byte")] =
      [Json.obj [("error", Json.str
        "'utf-8' codec can't decode byte 0xff in position 0: invalid start byte")]] ∧
    isMalformedInputResponse
      (Json.obj [("error", Json.str
        "'utf-8' codec can't decode byte 0xff in position 0: invalid start byte")])
      = false :=
  ⟨rfl, rfl⟩

/-- C3 amended: a received byte sequence that decodes as UTF-8 text but
is not valid JSON is answered with a Failure whose message starts with
`"Invalid JSON: "`; a non-UTF-8 byte sequence (also not valid JSON) is
instead answered with the codec-error Failure `{"error": "'utf-8'
codec can't decode ..."}`, which carries no `"Invalid JSON: "` prefix.
In both cases the handler returns to the Reading state: the connection
is not closed, the next request on the same connection — in particular
a well-formed one — is still processed normally, and the loop
continues with the remaining events. -/
theorem invalid_json_keeps_connection
    (impl : String → Handler) (m d : String) (p : ParseOutcome)
    (evs : List RecvEvent) :
    handle_client (COMMAND_MAP impl)
        (RecvEvent.data (ParseOutcome.jsonError m) ::
          RecvEvent.data p :: evs) =
      Json.obj [("error", Json.str ("Invalid JSON: " ++ m))] ::
        handle_message (COMMAND_MAP impl) p ::
        handle_client (COMMAND_MAP impl) evs ∧
    handle_client (COMMAND_MAP impl)
        (RecvEvent.data (ParseOutcome.decodeError d) ::
          RecvEvent.data p :: evs) =
      Json.obj [("error",
          Json.str ("'utf-8' codec can't decode " ++ d))] ::
        handle_message (COMMAND_MAP impl) p ::
        handle_client (COMMAND_MAP impl) evs ∧
    isMalformedInputResponse
      (Json.obj [("error",
        Json.str ("'utf-8' codec can't decode " ++ d))]) = false := by
  refine ⟨?_, ?_, ?_⟩
  · simp [handle_client, handle_message]
  · simp [handle_client, handle_message]
  · show List.isPrefixOf "Invalid JSON: ".data
      ("'utf-8' codec can't decode " ++ d).data = false
    rw [String.data_append]
    exact marker_head_ne _ _ (by decide)

/-- C4 counterexample: the valid JSON object `{}` lacks a `type` field,
yet the connection handler does not reject it as malformed input — it
is dispatched through `process_command` and answered with the Failure
`"Unknown command type: None"`, whose message is not of the
`"Invalid JSON: ..."` family. -/
theorem missing_type_counterexample :
    handle_message (COMMAND_MAP trivialImpl)
        (ParseOutcome.ok (Json.obj [])) =
      Json.obj [("error", Json.str "Unknown command type: None")] ∧
    isMalformedInputResponse
      (handle_message (COMMAND_MAP trivialImpl)
        (ParseOutcome.ok (Json.obj []))) = false := by
  constructor
  · rfl
  · rfl

/-- Dispatch never fabricates a malformed-input response: whichever
decoded command arrives, the answer is the handler's own result
(assumed by `hclean` not to impersonate a decode failure), an
`"Error executing ..."` Failure, an `"Unknown command type: ..."`
Failure, or an `AttributeError` text beginning with a quote — none of
which carries the `"Invalid JSON: "` marker. -/
theorem dispatch_not_malformed
    (impl : String → Handler)
    (hclean : ∀ t a r, impl t a = Except.ok r →
      isMalformedInputResponse r = false)
    (command : Json) :
    isMalformedInputResponse
      (handle_message (COMMAND_MAP impl) (ParseOutcome.ok command)) =
      false := by
  cases command with
  | null => rfl
  | bool b => rfl
  | num n => rfl
  | str s2 => rfl
  | arr elems => rfl
  | obj fields =>
    rcases htype : jsonLookup fields "type" with _ | v
    · simp [handle_message, process_command, htype, pyStr,
        isMalformedInputResponse]
      exact marker_head_ne _ _ (by decide)
    · cases v with
      | null =>
        simp [handle_message, process_command, htype, pyStr,
          isMalformedInputResponse]
        exact marker_head_ne _ _ (by decide)
      | bool b =>
        cases b <;>
          · simp [handle_message, process_command, htype, pyStr,
              isMalformedInputResponse]
            exact marker_head_ne _ _ (by decide)
      | num n =>
        simp [handle_message, process_command, htype, pyStr,
          isMalformedInputResponse]
        exact marker_head_ne _ _ (by decide)
      | arr elems =>
        simp [handle_message, process_command, htype, pyStr,
          isMalformedInputResponse]
        exact marker_head_ne _ _ (by decide)
      | obj fields2 =>
        simp [handle_message, process_command, htype, pyStr,
          isMalformedInputResponse]
        exact marker_head_ne _ _ (by decide)
      | str t =>
        by_cases hmem : t ∈ commandNames
        · cases hrun : impl t ((jsonLookup fields "args").getD (Json.obj []))
            with
          | ok r =>
            have := hclean t ((jsonLookup fields "args").getD (Json.obj []))
              r hrun
            simp [handle_message, process_command, htype, COMMAND_MAP, hmem,
              executeInMainThread, hrun, this]
          | error e =>
            simp [handle_message, process_command, htype, COMMAND_MAP, hmem,
              executeInMainThread, hrun, isMalformedInputResponse]
            exact marker_head_ne _ _ (by decide)
        · simp [handle_message, process_command, htype, COMMAND_MAP, hmem,
            isMalformedInputResponse]
          exact marker_head_ne _ _ (by decide)

/-- C4 amended: for every received message — given handlers that do not
themselves return `"Invalid JSON: "`-prefixed error objects — the
response reports malformed input (its error message carries the
`"Invalid JSON: "` marker) iff the bytes decoded as UTF-8 text but
`json.loads` failed on them; non-UTF-8 bytes are answered with the
codec-error Failure, which does not carry the marker; and a valid JSON
object lacking a `type` field is not rejected as malformed input — it
is dispatched with a `None` command type and answered with the Failure
`"Unknown command type: None"` (no handler is consulted). -/
theorem malformed_input_is_json_only
    (impl : String → Handler)
    (hclean : ∀ t a r, impl t a = Except.ok r →
      isMalformedInputResponse r = false) :
    (∀ p : ParseOutcome,
      isMalformedInputResponse (handle_message (COMMAND_MAP impl) p) =
          true ↔
        ∃ m, p = ParseOutcome.jsonError m) ∧
    (∀ fields : List (String × Json),
      jsonLookup fields "type" = none →
        handle_message (COMMAND_MAP impl)
            (ParseOutcome.ok (Json.obj fields)) =
          Json.obj [("error", Json.str "Unknown command type: None")]) := by
  constructor
  · intro p
    cases p with
    | ok command =>
      rw [dispatch_not_malformed impl hclean command]
      simp
    | jsonError m =>
      have hl : isMalformedInputResponse
          (handle_message (COMMAND_MAP impl)
            (ParseOutcome.jsonError m)) = true := by
        show List.isPrefixOf "Invalid JSON: ".data
          ("Invalid JSON: " ++ m).data = true
        rw [String.data_append]
        exact isPrefixOf_append_self _ _
      simp [hl]
    | decodeError d =>
      have hl : isMalformedInputResponse
          (handle_message (COMMAND_MAP impl)
            (ParseOutcome.decodeError d)) = false := by
        show List.isPrefixOf "Invalid JSON: ".data
          ("'utf-8' codec can't decode " ++ d).data = false
        rw [String.data_append]
        exact marker_head_ne _ _ (by decide)
      simp [hl]
  · intro fields hnotype
    simp [handle_message, process_command, hnotype, pyStr]

/-- C4 amended witness: with the trivial (clean) handlers, a concrete
parse failure is classified as malformed input and the typeless object
`{}` is answered as an unknown `None` command. -/
theorem malformed_input_is_json_only_witness :
    (isMalformedInputResponse
        (handle_message (COMMAND_MAP trivialImpl)
          (ParseOutcome.jsonError "Expecting value")) = true ↔
      ∃ m, ParseOutcome.jsonError "Expecting value" =
        ParseOutcome.jsonError m) ∧
    handle_message (COMMAND_MAP trivialImpl)
        (ParseOutcome.ok (Json.obj [])) =
      Json.obj [("error", Json.str "Unknown command type: None")] :=
  ⟨(malformed_input_is_json_only trivialImpl
      (fun t a r h => by injection h with h2; rw [← h2]; rfl)).1
      (ParseOutcome.jsonError "Expecting value"),
   (malformed_input_is_json_only trivialImpl
      (fun t a r h => by injection h with h2; rw [← h2]; rfl)).2 [] rfl⟩

/-- Draining lemma for the owning-thread pump: running the pump once
per queued WorkItem empties the queue and appends the items' results in
queue order. -/
theorem pumpRun_drains (ws : List WorkItem) (ex : List (Nat × Response)) :
    pumpRun ws.length { queue := ws, executed := ex } =
      { queue := [], executed := ex ++ ws.map (fun w => (w.id, w.job ())) } := by
  induction ws generalizing ex with
  | nil => simp [pumpRun]
  | cons w rest ih =>
    simp only [List.length_cons, pumpRun, pumpStep, List.map_cons]
    rw [ih]
    simp

/-- C5: jobs submitted to the Main-Thread Executor (modelled from the
spec; the pump itself is the host's `executeInMainThread`) execute on
the owning thread in strict FIFO submission order, each exactly once:
draining a queue of submitted WorkItems records precisely the list of
their results in submission order; moreover every individual pump step
completes at most one WorkItem and only ever appends to the completed
history, so at most one job executes at any instant and none is
reordered or repeated. -/
theorem pump_fifo_exactly_once (ws : List WorkItem) :
    (pumpRun ws.length { queue := ws, executed := [] }).executed =
      ws.map (fun w => (w.id, w.job ())) ∧
    ∀ s : PumpState, ∃ tail,
      (pumpStep s).executed = s.executed ++ tail ∧ tail.length ≤ 1 := by
  constructor
  · rw [pumpRun_drains]
    simp
  · intro s
    match h : s.queue with
    | [] =>
      refine ⟨[], ?_, by simp⟩
      simp [pumpStep, h]
    | w :: rest =>
      refine ⟨[(w.id, w.job ())], ?_, by simp⟩
      simp [pumpStep, h]

/-- C6: a job submitted for main-thread execution when no owning-thread
pump is attached (modelled from the spec's Executor contract) fails
synchronously with the `ExecutorUnavailable` Failure instead of
blocking; with a pump attached the job is run on it. -/
theorem submit_executor_unavailable (job : Unit → Response) :
    submit none job = Response.failure "ExecutorUnavailable" ∧
    ∀ runOnOwningThread,
      submit (some runOnOwningThread) job = runOnOwningThread job :=
  ⟨rfl, fun _ => rfl⟩

/-- C7: `stop()` always clears the `running` flag; when the listening
socket is still open the dummy self-connection succeeds, a pending
`accept()` is unblocked and the listening socket is left closed; and
`stop()` is idempotent — a second call (in particular on an
already-stopped server) changes nothing further and, the whole body
being guarded by `try`/`except: pass`, raises nothing. -/
theorem stop_idempotent_and_closes (s : ServerState) :
    (ServerState.stop s).running = false ∧
    (s.socketClosed = false →
      ServerState.stop s =
        { running := false, socketClosed := true, acceptPending := false }) ∧
    ServerState.stop (ServerState.stop s) = ServerState.stop s := by
  cases h : s.socketClosed <;>
    simp [ServerState.stop, selfConnectSucceeds, h]

/-- C7 witness: stopping a running server with a pending accept yields
the stopped, socket-closed, unblocked state, stopping it again changes
nothing, and the flag is cleared. -/
theorem stop_idempotent_and_closes_witness :
    ServerState.stop
        { running := true, socketClosed := false, acceptPending := true } =
      { running := false, socketClosed := true, acceptPending := false } ∧
    ServerState.stop (ServerState.stop
        { running := true, socketClosed := false, acceptPending := true }) =
      ServerState.stop
        { running := true, socketClosed := false, acceptPending := true } ∧
    (ServerState.stop
        { running := true, socketClosed := false, acceptPending := true }
      ).running = false :=
  ⟨(stop_idempotent_and_closes
      { running := true, socketClosed := false, acceptPending := true }).2.1 rfl,
   (stop_idempotent_and_closes
      { running := true, socketClosed := false, acceptPending := true }).2.2,
   (stop_idempotent_and_closes
      { running := true, socketClosed := false, acceptPending := true }).1⟩

/-- C8: the module-level lifecycle keeps at most one live server. With
a running instance in the global slot, `start_nuke_bridge_server`
returns `False` and changes nothing, and `stop_nuke_bridge_server`
clears the slot and returns `True`.  With an empty slot or a
non-running instance, start installs a freshly started instance (a new
identity) and returns `True`, while stop returns `False` and changes
nothing.  After stopping a running instance, a subsequent start
installs a fresh instance whose identity differs from the
stopped one. -/
theorem singleton_lifecycle (g : BridgeGlobal) (i : Nat) (s : ServerState) :
    (g.inst = some (i, s) → s.running = true →
      start_nuke_bridge_server g = (false, g) ∧
      stop_nuke_bridge_server g = (true, { g with inst := none })) ∧
    (g.inst = none →
      start_nuke_bridge_server g =
        (true, { inst := some (g.nextId, newServer),
                 nextId := g.nextId + 1 }) ∧
      stop_nuke_bridge_server g = (false, g)) ∧
    (g.inst = some (i, s) → s.running = false →
      start_nuke_bridge_server g =
        (true, { inst := some (g.nextId, newServer),
                 nextId := g.nextId + 1 }) ∧
      stop_nuke_bridge_server g = (false, g)) ∧
    (g.inst = some (i, s) → s.running = true → i < g.nextId →
      (start_nuke_bridge_server (stop_nuke_bridge_server g).2).2.inst =
        some (g.nextId, newServer) ∧ g.nextId ≠ i) := by
  refine ⟨?_, ?_, ?_, ?_⟩
  · intro hinst hrun
    simp [start_nuke_bridge_server, stop_nuke_bridge_server, hinst, hrun]
  · intro hinst
    simp [start_nuke_bridge_server, stop_nuke_bridge_server, hinst]
  · intro hinst hrun
    simp [start_nuke_bridge_server, stop_nuke_bridge_server, hinst, hrun]
  · intro hinst hrun hfresh
    constructor
    · simp [start_nuke_bridge_server, stop_nuke_bridge_server, hinst, hrun]
    · exact fun h => absurd (h ▸ hfresh) (lt_irrefl i)

/-- C8 witness: with a running instance (identity 0) in the slot, start
refuses, stop clears the slot, and a start after the stop installs the
fresh identity 1. -/
theorem singleton_lifecycle_witness :
    start_nuke_bridge_server { inst := some (0, newServer), nextId := 1 } =
      (false, { inst := some (0, newServer), nextId := 1 }) ∧
    stop_nuke_bridge_server { inst := some (0, newServer), nextId := 1 } =
      (true, { inst := none, nextId := 1 }) ∧
    (start_nuke_bridge_server
        (stop_nuke_bridge_server
          { inst := some (0, newServer), nextId := 1 }).2).2.inst =
      some (1, newServer) :=
  ⟨((singleton_lifecycle { inst := some (0, newServer), nextId := 1 }
      0 newServer).1 rfl rfl).1,
   ((singleton_lifecycle { inst := some (0, newServer), nextId := 1 }
      0 newServer).1 rfl rfl).2,
   ((singleton_lifecycle { inst := some (0, newServer), nextId := 1 }
      0 newServer).2.2.2 rfl rfl (by decide)).1⟩

/-- C9: a decoded request carrying a `type` but no `args` field is
dispatched with the empty mapping as argument map: the registered
handler receives `{}` and its result is returned unchanged; likewise
`FoundryNukeBridge.process_command` invokes `create_node` with `{}`
when a `createNode` request carries no `args`. -/
theorem missing_args_defaults_empty
    (impl : String → Handler) (fields : List (String × Json))
    (t : String) (r : Json)
    (htype : jsonLookup fields "type" = some (Json.str t))
    (hreg : t ∈ commandNames)
    (hargs : jsonLookup fields "args" = none)
    (hrun : impl t (Json.obj []) = Except.ok r) :
    process_command (COMMAND_MAP impl) (Json.obj fields) = Except.ok r ∧
    ∀ (fh : FoundryHandlers) (fields2 : List (String × Json)),
      jsonLookup fields2 "type" = some (Json.str "createNode") →
      jsonLookup fields2 "args" = none →
      foundry_process_command fh (Json.obj fields2) =
        Except.ok (fh.create_node (Json.obj [])) := by
  constructor
  · simp [process_command, COMMAND_MAP, htype, hreg, hargs,
      executeInMainThread, hrun]
  · intro fh fields2 htype2 hargs2
    simp [foundry_process_command, htype2, hargs2]

/-- C9 witness: an args-echoing handler invoked through a request with
no `args` field answers with the empty mapping, showing the handler
received `{}`; the foundry dispatcher likewise hands `{}` to
`create_node`. -/
theorem missing_args_defaults_empty_witness :
    process_command (COMMAND_MAP (fun _ a => Except.ok a))
        (Json.obj [("type", Json.str "createNode")]) =
      Except.ok (Json.obj []) ∧
    foundry_process_command trivialFoundry
        (Json.obj [("type", Json.str "createNode")]) =
      Except.ok (trivialFoundry.create_node (Json.obj [])) :=
  ⟨(missing_args_defaults_empty (fun _ a => Except.ok a)
      [("type", Json.str "createNode")] "createNode" (Json.obj [])
      rfl (by decide) rfl rfl).1,
   (missing_args_defaults_empty (fun _ a => Except.ok a)
      [("type", Json.str "createNode")] "createNode" (Json.obj [])
      rfl (by decide) rfl rfl).2 trivialFoundry
     [("type", Json.str "createNode")] rfl rfl⟩

end NukeMCP
